import Mathlib

/-!
Verification of the bubble-proxy monitor (`monitor/check.py`).

The development shallowly embeds the monitor's core logic:

* `Outcome` — the result dict built by `ProxyMonitor.check_health`;
* `check_health` — the health probe, parameterised by the behaviour of the
  underlying HTTP request (`ProbeBehaviour`);
* `MonitorState` — the mutable fields of `ProxyMonitor` touched by
  `handle_check_result` (`is_down`, `downtime_start`, `consecutive_failures`,
  `consecutive_successes`);
* `handle_check_result` — the availability state machine, parameterised by the
  notifier's behaviour (absent, send returning a Bool, or send raising);
* `send_message` / `send_alert_message` — the Telegram notifier's send and the
  down-alert message construction.

Python wall-clock times (`time.time()`) are modelled as rationals; Python's
`int(...)` truncation is `pyInt`.
-/

namespace BubbleProxy

/-- Python `int(x)` on a nonneg/neg rational: truncation toward zero. -/
def pyInt (q : ℚ) : ℤ := if 0 ≤ q then ⌊q⌋ else -⌊-q⌋

/-- The result dict built by `check_health` (keys `success`, `status_code`,
`response_time`, `error`, `timestamp`). -/
structure Outcome where
  success : Bool
  status_code : Option ℤ
  response_time : Option ℚ
  error : Option String
  timestamp : String
deriving DecidableEq

/-- The monitor's mutable availability state (`ProxyMonitor.__init__`,
lines 85–88). -/
structure MonitorState where
  is_down : Bool
  downtime_start : Option ℚ
  consecutive_failures : ℕ
  consecutive_successes : ℕ
deriving DecidableEq

/-- Initial state: `is_down=False`, `downtime_start=None`, both counters 0. -/
def initState : MonitorState :=
  { is_down := false, downtime_start := none
    consecutive_failures := 0, consecutive_successes := 0 }

/-- Threshold configuration (`ProxyMonitor.__init__`, lines 90–93). -/
structure Config where
  failure_threshold : ℕ
  recovery_threshold : ℕ
  timeout : ℕ
deriving DecidableEq

/-- The values assigned in `__init__`: thresholds 2/2, timeout 15. -/
def defaultConfig : Config :=
  { failure_threshold := 2, recovery_threshold := 2, timeout := 15 }

/-- The transition event implied by one `handle_check_result` call:
no transition, a DOWN alert, or a RECOVERED notification. -/
inductive Transition where
  | NONE
  | DOWN (status_code : Option ℤ) (error : Option String) (response_time : Option ℚ)
  | RECOVERED (downtime_duration : ℤ)
deriving DecidableEq

def Transition.isDown : Transition → Bool
  | .DOWN _ _ _ => true
  | _ => false

def Transition.isRecovered : Transition → Bool
  | .RECOVERED _ => true
  | _ => false

/-- Behaviour of one notifier send call: it either completes returning a
Bool, or raises an exception into `handle_check_result`. -/
inductive SendBehaviour where
  | returns (b : Bool)
  | raises
deriving DecidableEq

/-- `self.notifier`: either `None` or a notifier whose send behaves as given. -/
inductive NotifierOpt where
  | noNotifier
  | withNotifier (send : SendBehaviour)
deriving DecidableEq

/-- `ProxyMonitor.handle_check_result` (lines 159–197), with the notifier's
behaviour explicit.  Returns the final state, the transition event, and
whether an exception escaped the call (only possible from a raising
notifier).  On the failure path the state fields are updated *before* the
notifier call; on the recovery path the notifier is called *before* the
state reset, so a raising notifier leaves the post-increment, un-reset
state behind. -/
def handle_check_result (cfg : Config) (nb : NotifierOpt) (s : MonitorState)
    (r : Outcome) (now : ℚ) : MonitorState × Transition × Bool :=
  if r.success then
    let s1 : MonitorState :=
      { s with consecutive_failures := 0
               consecutive_successes := s.consecutive_successes + 1 }
    if s1.is_down = true ∧ cfg.recovery_threshold ≤ s1.consecutive_successes then
      let downtime_duration : ℤ := pyInt (now - s1.downtime_start.getD 0)
      match nb with
      | .withNotifier .raises =>
          -- send_recovery raised: the reset on lines 173–175 never runs
          (s1, .RECOVERED downtime_duration, true)
      | _ =>
          ({ s1 with is_down := false, downtime_start := none
                     consecutive_successes := 0 },
           .RECOVERED downtime_duration, false)
    else
      (s1, .NONE, false)
  else
    let s1 : MonitorState :=
      { s with consecutive_successes := 0
               consecutive_failures := s.consecutive_failures + 1 }
    if s1.is_down = false ∧ cfg.failure_threshold ≤ s1.consecutive_failures then
      let s2 : MonitorState := { s1 with is_down := true, downtime_start := some now }
      match nb with
      | .withNotifier .raises =>
          -- send_alert raised: lines 186–187 already ran
          (s2, .DOWN r.status_code r.error r.response_time, true)
      | _ =>
          (s2, .DOWN r.status_code r.error r.response_time, false)
    else
      (s1, .NONE, false)

/-- One state-machine step with no notifier attached (the state evolution is
identical for any non-raising notifier; see `handle_returns_eq_noNotifier`). -/
def handleStep (cfg : Config) (s : MonitorState) (r : Outcome) (now : ℚ) :
    MonitorState × Transition :=
  ((handle_check_result cfg .noNotifier s r now).1,
   (handle_check_result cfg .noNotifier s r now).2.1)

/-- Run a timestamped sequence of outcomes through the state machine. -/
def runFrom (cfg : Config) : MonitorState → List (Outcome × ℚ) → MonitorState
  | s, [] => s
  | s, x :: xs => runFrom cfg (handleStep cfg s x.1 x.2).1 xs

/-- The transitions emitted along a timestamped sequence of outcomes. -/
def transitionsFrom (cfg : Config) : MonitorState → List (Outcome × ℚ) → List Transition
  | _, [] => []
  | s, x :: xs =>
      (handleStep cfg s x.1 x.2).2 :: transitionsFrom cfg (handleStep cfg s x.1 x.2).1 xs

theorem transitionsFrom_length (cfg : Config) (s : MonitorState)
    (tr : List (Outcome × ℚ)) : (transitionsFrom cfg s tr).length = tr.length := by
  induction tr generalizing s with
  | nil => rfl
  | cons x xs ih => simp [transitionsFrom, ih]

theorem runFrom_append (cfg : Config) (s : MonitorState)
    (l₁ l₂ : List (Outcome × ℚ)) :
    runFrom cfg s (l₁ ++ l₂) = runFrom cfg (runFrom cfg s l₁) l₂ := by
  induction l₁ generalizing s with
  | nil => rfl
  | cons x xs ih => simp [runFrom, ih]

/-- Equation form of a success step (lines 162–175, no notifier attached). -/
theorem handleStep_success_eq (cfg : Config) (s : MonitorState) (r : Outcome)
    (now : ℚ) (h : r.success = true) :
    handleStep cfg s r now =
      if s.is_down = true ∧ cfg.recovery_threshold ≤ s.consecutive_successes + 1 then
        ({ is_down := false, downtime_start := none, consecutive_failures := 0
           consecutive_successes := 0 },
         .RECOVERED (pyInt (now - s.downtime_start.getD 0)))
      else
        ({ s with consecutive_failures := 0
                  consecutive_successes := s.consecutive_successes + 1 }, .NONE) := by
  simp only [handleStep, handle_check_result, h, if_true]
  split <;> rfl

/-- Equation form of a failure step (lines 179–197, no notifier attached). -/
theorem handleStep_failure_eq (cfg : Config) (s : MonitorState) (r : Outcome)
    (now : ℚ) (h : r.success = false) :
    handleStep cfg s r now =
      if s.is_down = false ∧ cfg.failure_threshold ≤ s.consecutive_failures + 1 then
        ({ is_down := true, downtime_start := some now
           consecutive_failures := s.consecutive_failures + 1, consecutive_successes := 0 },
         .DOWN r.status_code r.error r.response_time)
      else
        ({ s with consecutive_successes := 0
                  consecutive_failures := s.consecutive_failures + 1 }, .NONE) := by
  simp only [handleStep, handle_check_result, h, Bool.false_eq_true, if_false]
  split <;> rfl

/-- After any single step, at least one of the two counters is zero. -/
theorem counters_exclusive_step (cfg : Config) (s : MonitorState) (r : Outcome)
    (now : ℚ) :
    (handleStep cfg s r now).1.consecutive_failures = 0 ∨
    (handleStep cfg s r now).1.consecutive_successes = 0 := by
  cases h : r.success with
  | true => rw [handleStep_success_eq cfg s r now h]; split <;> simp
  | false => rw [handleStep_failure_eq cfg s r now h]; split <;> simp

theorem counters_exclusive_runFrom (cfg : Config) (tr : List (Outcome × ℚ))
    (s : MonitorState)
    (h : s.consecutive_failures = 0 ∨ s.consecutive_successes = 0) :
    (runFrom cfg s tr).consecutive_failures = 0 ∨
    (runFrom cfg s tr).consecutive_successes = 0 := by
  induction tr generalizing s with
  | nil => exact h
  | cons x xs ih => exact ih _ (counters_exclusive_step cfg s x.1 x.2)

/-- C3: for every sequence of outcomes applied from the initial state, at most
one of `consecutive_failures` and `consecutive_successes` is nonzero after
each call (every prefix of a sequence is itself a sequence). -/
theorem counters_never_both_nonzero (cfg : Config) (tr : List (Outcome × ℚ)) :
    (runFrom cfg initState tr).consecutive_failures = 0 ∨
    (runFrom cfg initState tr).consecutive_successes = 0 :=
  counters_exclusive_runFrom cfg tr initState (Or.inl rfl)

/-- A single step preserves `downtime_start.isSome = is_down`. -/
theorem downtime_iff_down_step (cfg : Config) (s : MonitorState) (r : Outcome)
    (now : ℚ) (h : s.downtime_start.isSome = s.is_down) :
    (handleStep cfg s r now).1.downtime_start.isSome =
      (handleStep cfg s r now).1.is_down := by
  cases hs : r.success with
  | true => rw [handleStep_success_eq cfg s r now hs]; split <;> simp_all
  | false => rw [handleStep_failure_eq cfg s r now hs]; split <;> simp_all

theorem downtime_iff_down_runFrom (cfg : Config) (tr : List (Outcome × ℚ))
    (s : MonitorState) (h : s.downtime_start.isSome = s.is_down) :
    (runFrom cfg s tr).downtime_start.isSome = (runFrom cfg s tr).is_down := by
  induction tr generalizing s with
  | nil => exact h
  | cons x xs ih => exact ih _ (downtime_iff_down_step cfg s x.1 x.2 h)

/-- C4: for every sequence of outcomes applied from the initial state,
`downtime_start` is set (non-`None`) iff `is_down` is true. -/
theorem downtime_start_iff_is_down (cfg : Config) (tr : List (Outcome × ℚ)) :
    (runFrom cfg initState tr).downtime_start.isSome =
      (runFrom cfg initState tr).is_down :=
  downtime_iff_down_runFrom cfg tr initState rfl

/-- A success step always resets `consecutive_failures` to 0 (line 163). -/
theorem success_step_resets_failures (cfg : Config) (s : MonitorState)
    (r : Outcome) (now : ℚ) (h : r.success = true) :
    (handleStep cfg s r now).1.consecutive_failures = 0 := by
  rw [handleStep_success_eq cfg s r now h]; split <;> rfl

/-- A failure step always resets `consecutive_successes` to 0 (line 180). -/
theorem failure_step_resets_successes (cfg : Config) (s : MonitorState)
    (r : Outcome) (now : ℚ) (h : r.success = false) :
    (handleStep cfg s r now).1.consecutive_successes = 0 := by
  rw [handleStep_failure_eq cfg s r now h]; split <;> rfl

/-- A failure step whose guard (line 185) holds: the machine goes DOWN. -/
theorem handleStep_failure_fire (cfg : Config) (s : MonitorState) (r : Outcome)
    (now : ℚ) (h : r.success = false) (hs : s.is_down = false)
    (hθ : cfg.failure_threshold ≤ s.consecutive_failures + 1) :
    handleStep cfg s r now =
      ({ is_down := true, downtime_start := some now
         consecutive_failures := s.consecutive_failures + 1, consecutive_successes := 0 },
       .DOWN r.status_code r.error r.response_time) := by
  rw [handleStep_failure_eq cfg s r now h, if_pos ⟨hs, hθ⟩]

/-- A failure step whose guard (line 185) fails: counter bump only. -/
theorem handleStep_failure_quiet (cfg : Config) (s : MonitorState) (r : Outcome)
    (now : ℚ) (h : r.success = false)
    (hcond : ¬(s.is_down = false ∧ cfg.failure_threshold ≤ s.consecutive_failures + 1)) :
    handleStep cfg s r now =
      ({ s with consecutive_successes := 0
                consecutive_failures := s.consecutive_failures + 1 }, .NONE) := by
  rw [handleStep_failure_eq cfg s r now h, if_neg hcond]

/-- A success step whose guard (line 166) holds: the machine recovers. -/
theorem handleStep_success_fire (cfg : Config) (s : MonitorState) (r : Outcome)
    (now : ℚ) (h : r.success = true) (hs : s.is_down = true)
    (hθ : cfg.recovery_threshold ≤ s.consecutive_successes + 1) :
    handleStep cfg s r now =
      ({ is_down := false, downtime_start := none, consecutive_failures := 0
         consecutive_successes := 0 },
       .RECOVERED (pyInt (now - s.downtime_start.getD 0))) := by
  rw [handleStep_success_eq cfg s r now h, if_pos ⟨hs, hθ⟩]

/-- A success step whose guard (line 166) fails: counter bump only. -/
theorem handleStep_success_quiet (cfg : Config) (s : MonitorState) (r : Outcome)
    (now : ℚ) (h : r.success = true)
    (hcond : ¬(s.is_down = true ∧ cfg.recovery_threshold ≤ s.consecutive_successes + 1)) :
    handleStep cfg s r now =
      ({ s with consecutive_failures := 0
                consecutive_successes := s.consecutive_successes + 1 }, .NONE) := by
  rw [handleStep_success_eq cfg s r now h, if_neg hcond]

/-- While the machine is already DOWN, a run of failures emits no DOWN
transition (the guard on line 185 requires `not self.is_down`). -/
theorem failRun_down_silent (cfg : Config) (run : List (Outcome × ℚ))
    (hrun : ∀ x ∈ run, x.1.success = false) :
    ∀ s : MonitorState, s.is_down = true →
      ∀ i, i < run.length →
        ((transitionsFrom cfg s run).getD i .NONE).isDown = false := by
  induction run with
  | nil => intro s _ i hi; simp at hi
  | cons x xs ih =>
      intro s hs i hi
      have hx : x.1.success = false := hrun x (List.mem_cons_self x xs)
      have hstep := handleStep_failure_quiet cfg s x.1 x.2 hx (by simp [hs])
      have hxs : ∀ y ∈ xs, y.1.success = false := fun y hy => hrun y (List.mem_cons_of_mem x hy)
      cases i with
      | zero => simp [transitionsFrom, hstep, Transition.isDown]
      | succ j =>
          simp only [transitionsFrom, List.getD_cons_succ]
          have hpost : (handleStep cfg s x.1 x.2).1.is_down = true := by
            rw [hstep]; exact hs
          exact ih hxs _ hpost j (by simpa using hi)

/-- In a run of failures starting UP with `consecutive_failures = c` below the
threshold, the DOWN transition fires exactly at the step that brings the
counter to the threshold. -/
theorem failRun_transitions (cfg : Config) (run : List (Outcome × ℚ))
    (hrun : ∀ x ∈ run, x.1.success = false) :
    ∀ (s : MonitorState) (c : ℕ), s.is_down = false → s.consecutive_failures = c →
      c < cfg.failure_threshold →
      ∀ i, i < run.length →
        (((transitionsFrom cfg s run).getD i .NONE).isDown = true ↔
          c + i + 1 = cfg.failure_threshold) := by
  induction run with
  | nil => intro s c _ _ _ i hi; simp at hi
  | cons x xs ih =>
      intro s c hs hc hlt i hi
      have hx : x.1.success = false := hrun x (List.mem_cons_self x xs)
      have hxs : ∀ y ∈ xs, y.1.success = false := fun y hy => hrun y (List.mem_cons_of_mem x hy)
      by_cases hfire : cfg.failure_threshold ≤ c + 1
      · have heq : c + 1 = cfg.failure_threshold := by omega
        have hstep := handleStep_failure_fire cfg s x.1 x.2 hx hs (by omega)
        cases i with
        | zero =>
            simp only [transitionsFrom, List.getD_cons_zero, hstep]
            simp [Transition.isDown]
            omega
        | succ j =>
            simp only [transitionsFrom, List.getD_cons_succ]
            have hpost : (handleStep cfg s x.1 x.2).1.is_down = true := by
              rw [hstep]
            rw [failRun_down_silent cfg xs hxs _ hpost j (by simpa using hi)]
            constructor
            · intro hcontra; exact absurd hcontra (by simp)
            · intro hcontra; omega
      · have hstep := handleStep_failure_quiet cfg s x.1 x.2 hx
          (by rw [hc]; intro hcontra; exact hfire hcontra.2)
        cases i with
        | zero =>
            simp only [transitionsFrom, List.getD_cons_zero, hstep]
            constructor
            · intro hcontra; exact absurd hcontra (by simp [Transition.isDown])
            · intro hcontra; omega
        | succ j =>
            simp only [transitionsFrom, List.getD_cons_succ]
            have hpost1 : (handleStep cfg s x.1 x.2).1.is_down = false := by
              rw [hstep]; exact hs
            have hpost2 : (handleStep cfg s x.1 x.2).1.consecutive_failures = c + 1 := by
              rw [hstep, hc]
            have := ih hxs _ (c + 1) hpost1 hpost2 (by omega) j (by simpa using hi)
            rw [this]
            omega

/-- C1: starting from the initial state, along a contiguous run of failures
that begins while the machine is UP, the DOWN transition fires exactly at the
`failure_threshold`-th failure of the run — hence exactly once for runs of
length ≥ threshold and never at the (threshold−1)-th failure. -/
theorem down_transition_exactly_at_threshold (cfg : Config)
    (hθ : 1 ≤ cfg.failure_threshold)
    (pre run : List (Outcome × ℚ))
    (hpre : pre = [] ∨ ∃ l x, pre = l ++ [x] ∧ x.1.success = true)
    (hrun : ∀ x ∈ run, x.1.success = false)
    (hup : (runFrom cfg initState pre).is_down = false)
    (i : ℕ) (hi : i < run.length) :
    ((transitionsFrom cfg (runFrom cfg initState pre) run).getD i .NONE).isDown = true
      ↔ i + 1 = cfg.failure_threshold := by
  have hcf : (runFrom cfg initState pre).consecutive_failures = 0 := by
    rcases hpre with h0 | ⟨l, x, hlx, hx⟩
    · rw [h0]; rfl
    · rw [hlx, runFrom_append]
      show (runFrom cfg (handleStep cfg (runFrom cfg initState l) x.1 x.2).1
        []).consecutive_failures = 0
      exact success_step_resets_failures cfg _ x.1 x.2 hx
  have := failRun_transitions cfg run hrun _ 0 hup hcf (by omega) i hi
  simpa using this

/-- While the machine is already UP, a run of successes emits no RECOVERED
transition (the guard on line 166 requires `self.is_down`). -/
theorem succRun_up_silent (cfg : Config) (run : List (Outcome × ℚ))
    (hrun : ∀ x ∈ run, x.1.success = true) :
    ∀ s : MonitorState, s.is_down = false →
      ∀ i, i < run.length →
        ((transitionsFrom cfg s run).getD i .NONE).isRecovered = false := by
  induction run with
  | nil => intro s _ i hi; simp at hi
  | cons x xs ih =>
      intro s hs i hi
      have hx : x.1.success = true := hrun x (List.mem_cons_self x xs)
      have hstep := handleStep_success_quiet cfg s x.1 x.2 hx (by simp [hs])
      have hxs : ∀ y ∈ xs, y.1.success = true := fun y hy => hrun y (List.mem_cons_of_mem x hy)
      cases i with
      | zero => simp [transitionsFrom, hstep, Transition.isRecovered]
      | succ j =>
          simp only [transitionsFrom, List.getD_cons_succ]
          have hpost : (handleStep cfg s x.1 x.2).1.is_down = false := by
            rw [hstep]; exact hs
          exact ih hxs _ hpost j (by simpa using hi)

/-- In a run of successes starting DOWN with `consecutive_successes = c` below
the threshold, the RECOVERED transition fires exactly at the step that brings
the counter to the threshold. -/
theorem succRun_transitions (cfg : Config) (run : List (Outcome × ℚ))
    (hrun : ∀ x ∈ run, x.1.success = true) :
    ∀ (s : MonitorState) (c : ℕ), s.is_down = true → s.consecutive_successes = c →
      c < cfg.recovery_threshold →
      ∀ i, i < run.length →
        (((transitionsFrom cfg s run).getD i .NONE).isRecovered = true ↔
          c + i + 1 = cfg.recovery_threshold) := by
  induction run with
  | nil => intro s c _ _ _ i hi; simp at hi
  | cons x xs ih =>
      intro s c hs hc hlt i hi
      have hx : x.1.success = true := hrun x (List.mem_cons_self x xs)
      have hxs : ∀ y ∈ xs, y.1.success = true := fun y hy => hrun y (List.mem_cons_of_mem x hy)
      by_cases hfire : cfg.recovery_threshold ≤ c + 1
      · have hstep := handleStep_success_fire cfg s x.1 x.2 hx hs (by omega)
        cases i with
        | zero =>
            simp only [transitionsFrom, List.getD_cons_zero, hstep]
            simp [Transition.isRecovered]
            omega
        | succ j =>
            simp only [transitionsFrom, List.getD_cons_succ]
            have hpost : (handleStep cfg s x.1 x.2).1.is_down = false := by
              rw [hstep]
            rw [succRun_up_silent cfg xs hxs _ hpost j (by simpa using hi)]
            constructor
            · intro hcontra; exact absurd hcontra (by simp)
            · intro hcontra; omega
      · have hstep := handleStep_success_quiet cfg s x.1 x.2 hx
          (by rw [hc]; intro hcontra; exact hfire hcontra.2)
        cases i with
        | zero =>
            simp only [transitionsFrom, List.getD_cons_zero, hstep]
            constructor
            · intro hcontra; exact absurd hcontra (by simp [Transition.isRecovered])
            · intro hcontra; omega
        | succ j =>
            simp only [transitionsFrom, List.getD_cons_succ]
            have hpost1 : (handleStep cfg s x.1 x.2).1.is_down = true := by
              rw [hstep]; exact hs
            have hpost2 : (handleStep cfg s x.1 x.2).1.consecutive_successes = c + 1 := by
              rw [hstep, hc]
            have := ih hxs _ (c + 1) hpost1 hpost2 (by omega) j (by simpa using hi)
            rw [this]
            omega

/-- Running a success run from DOWN up to and including the firing step leaves
the fully reset state (lines 173–175). -/
theorem succRun_state_at_fire (cfg : Config) (run : List (Outcome × ℚ))
    (hrun : ∀ x ∈ run, x.1.success = true) :
    ∀ (s : MonitorState) (c : ℕ), s.is_down = true → s.consecutive_successes = c →
      c < cfg.recovery_threshold →
      ∀ i, i < run.length → c + i + 1 = cfg.recovery_threshold →
        runFrom cfg s (run.take (i + 1)) =
          { is_down := false, downtime_start := none, consecutive_failures := 0
            consecutive_successes := 0 } := by
  induction run with
  | nil => intro s c _ _ _ i hi; simp at hi
  | cons x xs ih =>
      intro s c hs hc hlt i hi hθ
      have hx : x.1.success = true := hrun x (List.mem_cons_self x xs)
      have hxs : ∀ y ∈ xs, y.1.success = true := fun y hy => hrun y (List.mem_cons_of_mem x hy)
      cases i with
      | zero =>
          have hstep := handleStep_success_fire cfg s x.1 x.2 hx hs (by omega)
          show runFrom cfg (handleStep cfg s x.1 x.2).1 [] = _
          rw [hstep]
          rfl
      | succ j =>
          have hstep := handleStep_success_quiet cfg s x.1 x.2 hx
            (by rw [hc]; intro hcontra; omega)
          show runFrom cfg (handleStep cfg s x.1 x.2).1 (xs.take (j + 1)) = _
          have hpost1 : (handleStep cfg s x.1 x.2).1.is_down = true := by
            rw [hstep]; exact hs
          have hpost2 : (handleStep cfg s x.1 x.2).1.consecutive_successes = c + 1 := by
            rw [hstep, hc]
          exact ih hxs _ (c + 1) hpost1 hpost2 (by omega) j (by simpa using hi) (by omega)

/-- C2: starting from the initial state, along a contiguous run of successes
that begins while the machine is DOWN, the RECOVERED transition fires exactly
at the `recovery_threshold`-th success of the run — exactly once for runs of
length ≥ threshold and never earlier — and on that transition the state is
reset: `is_down=false`, `downtime_start=None`, `consecutive_successes=0`. -/
theorem recovered_transition_exactly_at_threshold (cfg : Config)
    (hθ : 1 ≤ cfg.recovery_threshold)
    (pre run : List (Outcome × ℚ)) (l : List (Outcome × ℚ)) (x : Outcome × ℚ)
    (hpre : pre = l ++ [x]) (hx : x.1.success = false)
    (hrun : ∀ y ∈ run, y.1.success = true)
    (hdown : (runFrom cfg initState pre).is_down = true)
    (i : ℕ) (hi : i < run.length) :
    (((transitionsFrom cfg (runFrom cfg initState pre) run).getD i .NONE).isRecovered = true
       ↔ i + 1 = cfg.recovery_threshold)
    ∧ (i + 1 = cfg.recovery_threshold →
        runFrom cfg (runFrom cfg initState pre) (run.take (i + 1)) =
          { is_down := false, downtime_start := none, consecutive_failures := 0
            consecutive_successes := 0 }) := by
  have hcs : (runFrom cfg initState pre).consecutive_successes = 0 := by
    rw [hpre, runFrom_append]
    show (runFrom cfg (handleStep cfg (runFrom cfg initState l) x.1 x.2).1
      []).consecutive_successes = 0
    exact failure_step_resets_successes cfg _ x.1 x.2 hx
  constructor
  · have := succRun_transitions cfg run hrun _ 0 hdown hcs (by omega) i hi
    simpa using this
  · intro hfire
    exact succRun_state_at_fire cfg run hrun _ 0 hdown hcs (by omega) i hi (by omega)

/-- The step that emits DOWN stamps `downtime_start` with its own wall-clock
time (line 187). -/
theorem down_step_sets_start (cfg : Config) (s : MonitorState) (r : Outcome)
    (now : ℚ) (h : (handleStep cfg s r now).2.isDown = true) :
    (handleStep cfg s r now).1.downtime_start = some now := by
  cases hr : r.success with
  | true =>
      rw [handleStep_success_eq cfg s r now hr] at h
      by_cases hcond : s.is_down = true ∧ cfg.recovery_threshold ≤ s.consecutive_successes + 1
      · rw [if_pos hcond] at h; exact absurd h (by simp [Transition.isDown])
      · rw [if_neg hcond] at h; exact absurd h (by simp [Transition.isDown])
  | false =>
      rw [handleStep_failure_eq cfg s r now hr] at h ⊢
      by_cases hcond : s.is_down = false ∧ cfg.failure_threshold ≤ s.consecutive_failures + 1
      · rw [if_pos hcond]
      · rw [if_neg hcond] at h; exact absurd h (by simp [Transition.isDown])

/-- A step that emits no transition leaves `downtime_start` untouched. -/
theorem none_step_preserves_start (cfg : Config) (s : MonitorState) (r : Outcome)
    (now : ℚ) (h : (handleStep cfg s r now).2 = .NONE) :
    (handleStep cfg s r now).1.downtime_start = s.downtime_start := by
  cases hr : r.success with
  | true =>
      rw [handleStep_success_eq cfg s r now hr] at h ⊢
      by_cases hcond : s.is_down = true ∧ cfg.recovery_threshold ≤ s.consecutive_successes + 1
      · rw [if_pos hcond] at h; exact absurd h (by simp)
      · rw [if_neg hcond]
  | false =>
      rw [handleStep_failure_eq cfg s r now hr] at h ⊢
      by_cases hcond : s.is_down = false ∧ cfg.failure_threshold ≤ s.consecutive_failures + 1
      · rw [if_pos hcond] at h; exact absurd h (by simp)
      · rw [if_neg hcond]

/-- A stretch of the trace that emits only NONE preserves `downtime_start`. -/
theorem runFrom_preserves_start_of_none (cfg : Config) :
    ∀ (tr : List (Outcome × ℚ)) (s : MonitorState),
      (∀ t ∈ transitionsFrom cfg s tr, t = Transition.NONE) →
      (runFrom cfg s tr).downtime_start = s.downtime_start := by
  intro tr
  induction tr with
  | nil => intro s _; rfl
  | cons x xs ih =>
      intro s hmid
      have hhead : (handleStep cfg s x.1 x.2).2 = Transition.NONE :=
        hmid _ (by simp [transitionsFrom])
      have htail : ∀ t ∈ transitionsFrom cfg (handleStep cfg s x.1 x.2).1 xs,
          t = Transition.NONE := fun t ht => hmid t (by simp [transitionsFrom, ht])
      show (runFrom cfg (handleStep cfg s x.1 x.2).1 xs).downtime_start = s.downtime_start
      rw [ih _ htail, none_step_preserves_start cfg s x.1 x.2 hhead]

/-- The duration reported with RECOVERED is the truncated difference between
the recovery step's wall-clock time and `downtime_start` (line 167). -/
theorem recovered_step_duration (cfg : Config) (s : MonitorState) (r : Outcome)
    (now : ℚ) (d : ℤ) (h : (handleStep cfg s r now).2 = .RECOVERED d) :
    d = pyInt (now - s.downtime_start.getD 0) := by
  cases hr : r.success with
  | true =>
      rw [handleStep_success_eq cfg s r now hr] at h
      by_cases hcond : s.is_down = true ∧ cfg.recovery_threshold ≤ s.consecutive_successes + 1
      · rw [if_pos hcond] at h
        simpa using h.symm
      · rw [if_neg hcond] at h; exact absurd h (by simp)
  | false =>
      rw [handleStep_failure_eq cfg s r now hr] at h
      by_cases hcond : s.is_down = false ∧ cfg.failure_threshold ≤ s.consecutive_failures + 1
      · rw [if_pos hcond] at h; exact absurd h (by simp)
      · rw [if_neg hcond] at h; exact absurd h (by simp)

/-- C5: the duration reported on RECOVERED is the wall-clock time (truncated
to whole seconds, Python `int(...)`) from the check that crossed the failure
threshold — the one that emitted DOWN and stamped `downtime_start` — to the
check that emitted RECOVERED, regardless of when the first failure occurred. -/
theorem downtime_duration_from_threshold_crossing (cfg : Config)
    (tr1 tr2 : List (Outcome × ℚ)) (o1 o2 : Outcome) (t1 t2 : ℚ) (d : ℤ)
    (hdown : (handleStep cfg (runFrom cfg initState tr1) o1 t1).2.isDown = true)
    (hmid : ∀ t ∈ transitionsFrom cfg
        (handleStep cfg (runFrom cfg initState tr1) o1 t1).1 tr2, t = Transition.NONE)
    (hrec : (handleStep cfg
        (runFrom cfg (handleStep cfg (runFrom cfg initState tr1) o1 t1).1 tr2)
        o2 t2).2 = .RECOVERED d) :
    d = pyInt (t2 - t1) := by
  have hds1 : (handleStep cfg (runFrom cfg initState tr1) o1 t1).1.downtime_start = some t1 :=
    down_step_sets_start cfg _ o1 t1 hdown
  have hds2 : (runFrom cfg (handleStep cfg (runFrom cfg initState tr1) o1 t1).1
      tr2).downtime_start = some t1 := by
    rw [runFrom_preserves_start_of_none cfg tr2 _ hmid, hds1]
  have := recovered_step_duration cfg _ o2 t2 d hrec
  rw [hds2] at this
  simpa using this

/-- `s` begins with `p` (on the underlying character lists). -/
def strStarts (s p : String) : Bool := p.toList.isPrefixOf s.toList

/-- `sub` occurs somewhere inside `s` (on the underlying character lists). -/
def strContains (s sub : String) : Bool := decide (sub.toList <:+: s.toList)

theorem strStarts_append (p r : String) : strStarts (p ++ r) p = true := by
  simp [strStarts, String.toList]

/-- `pre` heads `(pre ++ extra) ++ rest` for any splitting of the tail. -/
theorem strStarts_concat (pre extra rest : String) :
    strStarts ((pre ++ extra) ++ rest) pre = true := by
  rw [String.append_assoc]; exact strStarts_append pre (extra ++ rest)

theorem strStarts_concat2 (pre extra a b : String) :
    strStarts (((pre ++ extra) ++ a) ++ b) pre = true := by
  rw [String.append_assoc, String.append_assoc]
  exact strStarts_append pre (extra ++ (a ++ b))

theorem strContains_append_right (a b n : String) (h : strContains b n = true) :
    strContains (a ++ b) n = true := by
  have hb : n.toList <:+: b.toList := of_decide_eq_true h
  obtain ⟨l, r, hlr⟩ := hb
  apply decide_eq_true
  refine ⟨a.toList ++ l, r, ?_⟩
  have hab : (a ++ b).toList = a.toList ++ b.toList := rfl
  rw [hab, ← hlr]
  simp [List.append_assoc]

theorem strContains_append_left (a b n : String) (h : strContains a n = true) :
    strContains (a ++ b) n = true := by
  have ha : n.toList <:+: a.toList := of_decide_eq_true h
  obtain ⟨l, r, hlr⟩ := ha
  apply decide_eq_true
  refine ⟨l, r ++ b.toList, ?_⟩
  have hab : (a ++ b).toList = a.toList ++ b.toList := rfl
  rw [hab, ← hlr]
  simp [List.append_assoc]

theorem strContains_self (s : String) : strContains s s = true := by
  apply decide_eq_true
  exact ⟨[], [], by simp⟩

/-- The behaviour of the single `requests.get` probe inside `check_health`:
an HTTP response, or one of the exception classes the code catches, in its
priority order (`SSLError` before the broader `ConnectionError`, then
`Timeout`, then any other exception). -/
inductive ProbeBehaviour where
  | httpResponse (status_code : ℤ) (elapsed : ℚ)
  | sslError (msg : String)
  | timeoutExpired
  | connectionError (msg : String)
  | otherError (msg : String)
deriving DecidableEq

/-- `ProxyMonitor.check_health` (lines 108–157): builds the result dict,
fills it from the response or from the caught exception, and always returns
it. -/
def check_health (timeout : ℕ) (ts : String) (b : ProbeBehaviour) : Outcome :=
  let result : Outcome :=
    { success := false, status_code := none, response_time := none
      error := none, timestamp := ts }
  match b with
  | .httpResponse code elapsed =>
      let result := { result with response_time := some elapsed, status_code := some code }
      if code = 200 then { result with success := true }
      else { result with error := some ("Bad status code: " ++ toString code) }
  | .sslError m => { result with error := some ("SSL Error: " ++ m) }
  | .timeoutExpired =>
      { result with error := some ("Timeout after " ++ toString timeout ++ "s") }
  | .connectionError m => { result with error := some ("Connection error: " ++ m) }
  | .otherError m => { result with error := some ("Unexpected error: " ++ m) }

/-- C6: a `check_health` outcome is successful iff the status code is 200 and
no error was recorded; a non-200 HTTP response records
`"Bad status code: {code}"` and is not a success. -/
theorem outcome_success_iff_200_no_error (timeout : ℕ) (ts : String) :
    (∀ b : ProbeBehaviour, (check_health timeout ts b).success = true ↔
        (check_health timeout ts b).status_code = some 200 ∧
        (check_health timeout ts b).error = none)
    ∧ ∀ (c : ℤ) (rt : ℚ), c ≠ 200 →
        (check_health timeout ts (.httpResponse c rt)).success = false ∧
        (check_health timeout ts (.httpResponse c rt)).error =
          some ("Bad status code: " ++ toString c) := by
  constructor
  · intro b
    cases b with
    | httpResponse c rt =>
        by_cases hc : c = 200
        · subst hc; simp [check_health]
        · simp [check_health, hc]
    | sslError m => simp [check_health]
    | timeoutExpired => simp [check_health]
    | connectionError m => simp [check_health]
    | otherError m => simp [check_health]
  · intro c rt hc
    simp [check_health, hc]

/-- Witness: a 502 response yields `success=false` and the bad-status error. -/
theorem outcome_success_iff_200_no_error_witness :
    (check_health 15 "t" (.httpResponse 502 1)).success = false ∧
    (check_health 15 "t" (.httpResponse 502 1)).error = some "Bad status code: 502" := by
  have h := (outcome_success_iff_200_no_error 15 "t").2 502 1 (by decide)
  exact ⟨h.1, by rw [h.2]; rfl⟩

/-- C7: `check_health` is total over every probe behaviour — every failure
mode is folded into the returned outcome — and the four exception categories
produce the four distinct error-message heads `"SSL Error:"`,
`"Timeout after"`, `"Connection error:"`, `"Unexpected error:"`, in the
catch order of the source (TLS before the broader connection class). -/
theorem check_health_total_and_classified (timeout : ℕ) (ts : String) :
    (∀ b : ProbeBehaviour, ∃ o : Outcome, check_health timeout ts b = o)
    ∧ (∀ m, strStarts ((check_health timeout ts (.sslError m)).error.getD "")
        "SSL Error:" = true ∧ (check_health timeout ts (.sslError m)).success = false)
    ∧ (strStarts ((check_health timeout ts .timeoutExpired).error.getD "")
        "Timeout after" = true ∧ (check_health timeout ts .timeoutExpired).success = false)
    ∧ (∀ m, strStarts ((check_health timeout ts (.connectionError m)).error.getD "")
        "Connection error:" = true ∧
        (check_health timeout ts (.connectionError m)).success = false)
    ∧ (∀ m, strStarts ((check_health timeout ts (.otherError m)).error.getD "")
        "Unexpected error:" = true ∧
        (check_health timeout ts (.otherError m)).success = false)
    ∧ (("SSL Error:" ≠ "Timeout after" ∧ "SSL Error:" ≠ "Connection error:" ∧
        "SSL Error:" ≠ "Unexpected error:") ∧
       ("Timeout after" ≠ "Connection error:" ∧ "Timeout after" ≠ "Unexpected error:") ∧
       "Connection error:" ≠ "Unexpected error:") := by
  refine ⟨fun b => ⟨check_health timeout ts b, rfl⟩, fun m => ⟨?_, rfl⟩, ⟨?_, rfl⟩,
    fun m => ⟨?_, rfl⟩, fun m => ⟨?_, rfl⟩, by decide⟩
  · exact strStarts_concat "SSL Error:" " " m
  · exact strStarts_concat2 "Timeout after" " " (toString timeout) "s"
  · exact strStarts_concat "Connection error:" " " m
  · exact strStarts_concat "Unexpected error:" " " m

/-- Behaviour of the HTTP transport inside `TelegramNotifier.send_message`:
the `requests.post` call raises, or an HTTP response arrives. -/
inductive TransportResult where
  | raisesExc
  | response (status : ℤ)
deriving DecidableEq

/-- `TelegramNotifier.send_message` (lines 31–46): a raising transport is
caught and reported as `False`; `raise_for_status` turns a 4xx/5xx response
into a caught exception, hence `False`; otherwise `True`.  The method never
raises. -/
def send_message (t : TransportResult) : Bool :=
  match t with
  | .raisesExc => false
  | .response status => if 400 ≤ status ∧ status < 600 then false else true

/-- A notifier whose send returns a Bool drives `handle_check_result`
exactly like no notifier at all: the return value is never inspected. -/
theorem handle_returns_eq_noNotifier (cfg : Config) (s : MonitorState)
    (r : Outcome) (now : ℚ) (b : Bool) :
    handle_check_result cfg (.withNotifier (.returns b)) s r now =
      handle_check_result cfg .noNotifier s r now := by
  simp only [handle_check_result]

/-- Equation form of a success step with a raising notifier. -/
theorem handle_raises_success_eq (cfg : Config) (s : MonitorState) (r : Outcome)
    (now : ℚ) (h : r.success = true) :
    handle_check_result cfg (.withNotifier .raises) s r now =
      if s.is_down = true ∧ cfg.recovery_threshold ≤ s.consecutive_successes + 1 then
        ({ s with consecutive_failures := 0
                  consecutive_successes := s.consecutive_successes + 1 },
         .RECOVERED (pyInt (now - s.downtime_start.getD 0)), true)
      else
        ({ s with consecutive_failures := 0
                  consecutive_successes := s.consecutive_successes + 1 }, .NONE, false) := by
  simp only [handle_check_result, h, if_true]

/-- Equation form of a failure step with a raising notifier. -/
theorem handle_raises_failure_eq (cfg : Config) (s : MonitorState) (r : Outcome)
    (now : ℚ) (h : r.success = false) :
    handle_check_result cfg (.withNotifier .raises) s r now =
      if s.is_down = false ∧ cfg.failure_threshold ≤ s.consecutive_failures + 1 then
        ({ is_down := true, downtime_start := some now
           consecutive_failures := s.consecutive_failures + 1, consecutive_successes := 0 },
         .DOWN r.status_code r.error r.response_time, true)
      else
        ({ s with consecutive_successes := 0
                  consecutive_failures := s.consecutive_failures + 1 }, .NONE, false) := by
  simp only [handle_check_result, h, Bool.false_eq_true, if_false]

/-- A failing health probe outcome, as `check_health` would build it for a
502 response. -/
def failOutcome : Outcome :=
  { success := false, status_code := some 502, response_time := some (3/10)
    error := some "Bad status code: 502", timestamp := "t0" }

/-- A successful health probe outcome (200 response). -/
def succOutcome : Outcome :=
  { success := true, status_code := some 200, response_time := some (1/10)
    error := none, timestamp := "t1" }

/-- C8 (amended): a notifier whose send *returns* a failure leaves the state
exactly as a successful send would, and never blocks the machine (no
exception escapes); and since `TelegramNotifier.send_message` catches every
transport exception and returns a Bool, any transport behaviour — raising
included — leaves the state identical to the successful-send state. -/
theorem notifier_send_result_never_alters_state :
    (∀ (cfg : Config) (s : MonitorState) (r : Outcome) (now : ℚ) (t : TransportResult),
      (handle_check_result cfg (.withNotifier (.returns (send_message t))) s r now).1 =
        (handle_check_result cfg (.withNotifier (.returns true)) s r now).1)
    ∧ (∀ (cfg : Config) (s : MonitorState) (r : Outcome) (now : ℚ) (b : Bool),
      (handle_check_result cfg (.withNotifier (.returns b)) s r now).1 =
        (handle_check_result cfg (.withNotifier (.returns true)) s r now).1)
    ∧ (∀ (cfg : Config) (s : MonitorState) (r : Outcome) (now : ℚ) (b : Bool),
      (handle_check_result cfg (.withNotifier (.returns b)) s r now).2.2 = false) := by
  refine ⟨fun cfg s r now t => ?_, fun cfg s r now b => ?_, fun cfg s r now b => ?_⟩
  · rw [handle_returns_eq_noNotifier, handle_returns_eq_noNotifier]
  · rw [handle_returns_eq_noNotifier, handle_returns_eq_noNotifier]
  · rw [handle_returns_eq_noNotifier]
    simp only [handle_check_result]
    split
    · split <;> rfl
    · split <;> rfl

/-- Counterexample to C8 as stated: a notifier that *raises* from its send
does alter the state.  From the reachable state DOWN with one consecutive
success, a second success triggers recovery; if `send_recovery` raises, the
reset on lines 173–175 is skipped, so the final state differs from the
successful-send state. -/
theorem notifier_raising_alters_state_counterexample :
    (handle_check_result defaultConfig (.withNotifier .raises)
        (runFrom defaultConfig initState [(failOutcome, 0), (failOutcome, 1), (succOutcome, 2)])
        succOutcome 5).1 ≠
      (handle_check_result defaultConfig (.withNotifier (.returns true))
        (runFrom defaultConfig initState [(failOutcome, 0), (failOutcome, 1), (succOutcome, 2)])
        succOutcome 5).1 := by
  decide

/-- C10: on a DOWN transition the state fields are written before the
notifier call, so even a raising `send_alert` leaves the state exactly as a
successful send would, with `is_down=true` and `downtime_start` stamped; on a
RECOVERED transition the notifier is called before the reset, so a raising
`send_recovery` skips the reset — `is_down` stays true, `downtime_start`
stays put, `consecutive_successes` keeps its incremented value — and the next
successful check emits RECOVERED again. -/
theorem down_state_first_recovery_notify_first :
    (∀ (cfg : Config) (s : MonitorState) (r : Outcome) (now : ℚ),
      ((handle_check_result cfg (.withNotifier .raises) s r now).2.1).isDown = true →
        (handle_check_result cfg (.withNotifier .raises) s r now).1 =
          (handle_check_result cfg (.withNotifier (.returns true)) s r now).1 ∧
        (handle_check_result cfg (.withNotifier .raises) s r now).1.is_down = true ∧
        (handle_check_result cfg (.withNotifier .raises) s r now).1.downtime_start = some now)
    ∧ (∀ (cfg : Config) (s : MonitorState) (r : Outcome) (now : ℚ) (d : ℤ),
      (handle_check_result cfg (.withNotifier .raises) s r now).2.1 = .RECOVERED d →
        (handle_check_result cfg (.withNotifier .raises) s r now).1.is_down = true ∧
        (handle_check_result cfg (.withNotifier .raises) s r now).1.downtime_start =
          s.downtime_start ∧
        (handle_check_result cfg (.withNotifier .raises) s r now).1.consecutive_successes =
          s.consecutive_successes + 1 ∧
        ∀ (r' : Outcome) (now' : ℚ), r'.success = true →
          ((handleStep cfg (handle_check_result cfg (.withNotifier .raises) s r now).1
            r' now').2).isRecovered = true) := by
  constructor
  · intro cfg s r now hdown
    cases hr : r.success with
    | true =>
        rw [handle_raises_success_eq cfg s r now hr] at hdown
        by_cases g : s.is_down = true ∧
            cfg.recovery_threshold ≤ s.consecutive_successes + 1
        · rw [if_pos g] at hdown; exact absurd hdown (by simp [Transition.isDown])
        · rw [if_neg g] at hdown; exact absurd hdown (by simp [Transition.isDown])
    | false =>
        rw [handle_raises_failure_eq cfg s r now hr] at hdown ⊢
        by_cases g : s.is_down = false ∧
            cfg.failure_threshold ≤ s.consecutive_failures + 1
        · rw [if_pos g]
          refine ⟨?_, rfl, rfl⟩
          rw [handle_returns_eq_noNotifier]
          have hh : (handle_check_result cfg .noNotifier s r now).1 =
              (handleStep cfg s r now).1 := rfl
          rw [hh, handleStep_failure_fire cfg s r now hr g.1 g.2]
        · rw [if_neg g] at hdown; exact absurd hdown (by simp [Transition.isDown])
  · intro cfg s r now d hrec
    cases hr : r.success with
    | false =>
        rw [handle_raises_failure_eq cfg s r now hr] at hrec
        by_cases g : s.is_down = false ∧
            cfg.failure_threshold ≤ s.consecutive_failures + 1
        · rw [if_pos g] at hrec; exact absurd hrec (by simp)
        · rw [if_neg g] at hrec; exact absurd hrec (by simp)
    | true =>
        rw [handle_raises_success_eq cfg s r now hr] at hrec ⊢
        by_cases g : s.is_down = true ∧
            cfg.recovery_threshold ≤ s.consecutive_successes + 1
        · rw [if_pos g]
          refine ⟨g.1, rfl, rfl, ?_⟩
          intro r' now' hr'
          have hfire := handleStep_success_fire cfg
            { is_down := s.is_down, downtime_start := s.downtime_start
              consecutive_failures := 0
              consecutive_successes := s.consecutive_successes + 1 }
            r' now' hr' g.1 (Nat.le_succ_of_le g.2)
          show (handleStep cfg
            { is_down := s.is_down, downtime_start := s.downtime_start
              consecutive_failures := 0
              consecutive_successes := s.consecutive_successes + 1 }
            r' now').2.isRecovered = true
          rw [hfire]
          rfl
        · rw [if_neg g] at hrec; exact absurd hrec (by simp)

/-- Witness for C10: a concrete raising recovery at thresholds 2/2 leaves the
machine DOWN with its downtime stamp, and the next success still recovers. -/
theorem down_state_first_recovery_notify_first_witness :
    (handle_check_result defaultConfig (.withNotifier .raises)
        (runFrom defaultConfig initState [(failOutcome, 0), (failOutcome, 1), (succOutcome, 2)])
        succOutcome 5).1.is_down = true ∧
    ((handleStep defaultConfig
        (handle_check_result defaultConfig (.withNotifier .raises)
          (runFrom defaultConfig initState [(failOutcome, 0), (failOutcome, 1), (succOutcome, 2)])
          succOutcome 5).1 succOutcome 7).2).isRecovered = true := by
  have h := down_state_first_recovery_notify_first.2 defaultConfig
    (runFrom defaultConfig initState [(failOutcome, 0), (failOutcome, 1), (succOutcome, 2)])
    succOutcome 5 (pyInt ((5 : ℚ) - 1)) (by rfl)
  exact ⟨h.1, h.2.2.2 succOutcome 7 rfl⟩

/-- Python truthiness of an optional int (`if status_code:`): `None` and `0`
are falsy. -/
def pyTruthyInt : Option ℤ → Bool
  | none => false
  | some n => decide (n ≠ 0)

/-- Python truthiness of an optional float (`if response_time:`): `None` and
`0.0` are falsy. -/
def pyTruthyRat : Option ℚ → Bool
  | none => false
  | some q => decide (q ≠ 0)

/-- Python truthiness of an optional string (`if error:`): `None` and `""`
are falsy. -/
def pyTruthyStr : Option String → Bool
  | none => false
  | some s => decide (s ≠ "")

/-- Stand-in for the `:.2f` float rendering in the alert message; the exact
digits are cosmetic (spec §4.3 makes formatting non-contractual), only the
surrounding field label matters here. -/
def ratRepr (q : ℚ) : String := toString q

/-- The message built by `TelegramNotifier.send_alert` (lines 48–64): header,
domain and timestamp always; status code, response time and error lines
guarded by Python truthiness of the corresponding argument. -/
def send_alert_message (domain : String) (status_code : Option ℤ)
    (error : Option String) (response_time : Option ℚ) (nowStr : String) : String :=
  let message := "🔴 <b>ПРОКСИ НЕДОСТУПЕН</b>\n\n"
  let message := message ++ "<b>Домен:</b> " ++ domain ++ "\n"
  let message := message ++ "<b>Время:</b> " ++ nowStr ++ "\n"
  let message := if pyTruthyInt status_code then
      message ++ "<b>Статус:</b> " ++ toString (status_code.getD 0) ++ "\n"
    else message
  let message := if pyTruthyRat response_time then
      message ++ "<b>Время ответа:</b> " ++ ratRepr (response_time.getD 0) ++ "s\n"
    else message
  let message := if pyTruthyStr error then
      message ++ "<b>Ошибка:</b> " ++ error.getD "" ++ "\n"
    else message
  message ++ "\n⚠️ <i>Проверь сервер и DNS настройки</i>"

theorem strContains_append_head (p r : String) : strContains (p ++ r) p = true := by
  apply decide_eq_true
  refine ⟨[], r.toList, ?_⟩
  have hpr : (p ++ r).toList = p.toList ++ r.toList := rfl
  rw [hpr]
  simp

theorem strContains_app3 (m a b c n : String) (h : strContains m n = true) :
    strContains (((m ++ a) ++ b) ++ c) n = true :=
  strContains_append_left _ c n (strContains_append_left _ b n
    (strContains_append_left m a n h))

theorem strContains_ite3 (cond : Prop) [Decidable cond] (m a b c n : String)
    (h : strContains m n = true) :
    strContains (if cond then ((m ++ a) ++ b) ++ c else m) n = true := by
  split
  · exact strContains_app3 m a b c n h
  · exact h

/-- C9 (amended): every down-alert message contains the domain and the
timestamp, and contains the status-code / response-time / error lines exactly
under Python truthiness of the corresponding outcome field — present *and*
nonzero (non-empty), not mere presence. -/
theorem send_alert_message_field_rules (domain : String) (status_code : Option ℤ)
    (error : Option String) (response_time : Option ℚ) (nowStr : String) :
    strContains (send_alert_message domain status_code error response_time nowStr)
      domain = true
    ∧ strContains (send_alert_message domain status_code error response_time nowStr)
      nowStr = true
    ∧ (pyTruthyInt status_code = true →
        strContains (send_alert_message domain status_code error response_time nowStr)
          "<b>Статус:</b>" = true)
    ∧ (pyTruthyRat response_time = true →
        strContains (send_alert_message domain status_code error response_time nowStr)
          "<b>Время ответа:</b>" = true)
    ∧ (pyTruthyStr error = true →
        strContains (send_alert_message domain status_code error response_time nowStr)
          "<b>Ошибка:</b>" = true) := by
  refine ⟨?_, ?_, fun h => ?_, fun h => ?_, fun h => ?_⟩
  · simp only [send_alert_message]
    apply strContains_append_left
    apply strContains_ite3
    apply strContains_ite3
    apply strContains_ite3
    apply strContains_app3
    apply strContains_append_left
    apply strContains_append_right
    exact strContains_self domain
  · simp only [send_alert_message]
    apply strContains_append_left
    apply strContains_ite3
    apply strContains_ite3
    apply strContains_ite3
    apply strContains_append_left
    apply strContains_append_right
    exact strContains_self nowStr
  · simp only [send_alert_message]
    rw [if_pos h]
    apply strContains_append_left
    apply strContains_ite3
    apply strContains_ite3
    apply strContains_append_left
    apply strContains_append_left
    apply strContains_append_right
    decide
  · simp only [send_alert_message]
    rw [if_pos h]
    apply strContains_append_left
    apply strContains_ite3
    apply strContains_append_left
    apply strContains_append_left
    apply strContains_append_right
    decide
  · simp only [send_alert_message]
    rw [if_pos h]
    apply strContains_append_left
    apply strContains_append_left
    apply strContains_append_left
    apply strContains_append_right
    decide

/-- Witness: for a 502 outcome with nonzero response time and non-empty
error, all three optional lines appear in the alert. -/
theorem send_alert_message_field_rules_witness :
    strContains (send_alert_message "example.com" (some 502)
      (some "Bad status code: 502") (some 1) "2026-01-01 00:00:00")
      "<b>Статус:</b>" = true
    ∧ strContains (send_alert_message "example.com" (some 502)
      (some "Bad status code: 502") (some 1) "2026-01-01 00:00:00")
      "<b>Время ответа:</b>" = true
    ∧ strContains (send_alert_message "example.com" (some 502)
      (some "Bad status code: 502") (some 1) "2026-01-01 00:00:00")
      "<b>Ошибка:</b>" = true := by
  have h := send_alert_message_field_rules "example.com" (some 502)
    (some "Bad status code: 502") (some 1) "2026-01-01 00:00:00"
  exact ⟨h.2.2.1 (by decide), h.2.2.2.1 (by decide), h.2.2.2.2 (by decide)⟩

set_option maxRecDepth 8192 in
/-- Counterexample to C9 as stated: an outcome *has* a response time
(`0.0`, which `time.time()` differences can produce), yet the alert omits
the response-time line, because the code tests truthiness (`if response_time:`),
not presence. -/
theorem send_alert_response_time_present_but_omitted :
    (some (0 : ℚ) ≠ (none : Option ℚ))
    ∧ strContains (send_alert_message "example.com" (some 502)
        (some "Bad status code: 502") (some 0) "2026-01-01 00:00:00")
        "<b>Время ответа:</b>" = false := by
  constructor
  · intro hcontra; cases hcontra
  · decide

/-- Witness for C1: with thresholds 2/2, three straight failures from startup
fire DOWN exactly on the second. -/
theorem down_transition_exactly_at_threshold_witness :
    ((transitionsFrom defaultConfig (runFrom defaultConfig initState [])
        [(failOutcome, 0), (failOutcome, 1), (failOutcome, 2)]).getD 1
        Transition.NONE).isDown = true := by
  have h := down_transition_exactly_at_threshold defaultConfig (by decide) []
    [(failOutcome, 0), (failOutcome, 1), (failOutcome, 2)] (Or.inl rfl)
    (by decide) (by decide) 1 (by decide)
  exact h.mpr (by decide)

/-- Witness for C2: after two failures (DOWN), two successes fire RECOVERED
on the second and leave the reset state. -/
theorem recovered_transition_exactly_at_threshold_witness :
    ((transitionsFrom defaultConfig
        (runFrom defaultConfig initState [(failOutcome, 0), (failOutcome, 1)])
        [(succOutcome, 2), (succOutcome, 3)]).getD 1 Transition.NONE).isRecovered = true
    ∧ runFrom defaultConfig
        (runFrom defaultConfig initState [(failOutcome, 0), (failOutcome, 1)])
        ([(succOutcome, 2), (succOutcome, 3)].take 2) =
      { is_down := false, downtime_start := none, consecutive_failures := 0
        consecutive_successes := 0 } := by
  have h := recovered_transition_exactly_at_threshold defaultConfig (by decide)
    [(failOutcome, 0), (failOutcome, 1)] [(succOutcome, 2), (succOutcome, 3)]
    [(failOutcome, 0)] (failOutcome, 1) rfl rfl (by decide) (by decide) 1 (by decide)
  exact ⟨h.1.mpr (by decide), h.2 (by decide)⟩

/-- Witness for C5: DOWN fires at t=10, an intermediate success at t=20 emits
nothing, recovery at t=61/2 reports `int(61/2 − 10) = 20` whole seconds. -/
theorem downtime_duration_from_threshold_crossing_witness :
    (20 : ℤ) = pyInt ((61/2 : ℚ) - 10) := by
  have hf : ⌊(61/2 : ℚ) - 10⌋ = 20 := by
    rw [Int.floor_eq_iff]
    norm_num
  have hd : pyInt ((61/2 : ℚ) - 10) = 20 := by
    have h0le : (0 : ℚ) ≤ (61/2 : ℚ) - 10 := by norm_num
    simp only [pyInt, if_pos h0le]
    exact hf
  have h0 : (handleStep defaultConfig
      (runFrom defaultConfig
        (handleStep defaultConfig (runFrom defaultConfig initState [(failOutcome, 0)])
          failOutcome 10).1
        [(succOutcome, 20)])
      succOutcome (61/2)).2 = Transition.RECOVERED (pyInt ((61/2 : ℚ) - 10)) := rfl
  exact downtime_duration_from_threshold_crossing defaultConfig
    [(failOutcome, 0)] [(succOutcome, 20)] failOutcome succOutcome 10 (61/2) 20
    (by decide) (by decide) (by rw [h0, hd])

end BubbleProxy
